import Mathlib

/-!
Verification of the senslify WebSocket room manager (`senslify/sockets.py`).

The Python module keeps a process-wide dictionary `rooms` mapping
`(groupid, sensorid)` tuples to per-room dictionaries that map each
connected WebSocket to the integer reading-type filter it subscribed to.
We embed Python dictionaries as insertion-ordered association lists with
unique keys, which matches the semantics of every dict operation the
module performs (`in`, indexing, item assignment, `del`, iteration over
`.items()` / `.keys()` in insertion order).

Python dict keys in `rooms` are heterogeneous values: the module inserts
`(groupid, sensorid)` tuples, but `_join` also tests membership of the
bare integer `sensorid`.  We embed the key universe as `PyKey`, with one
constructor for tuple keys and one for integer keys, so that this mixed
comparison is represented exactly as Python evaluates it (an int never
equals a tuple).
-/

set_option autoImplicit false

namespace Senslify

variable {α : Type} {β : Type} [DecidableEq α]

/-- Python `d[k]` as a total lookup: the value at the first (unique)
occurrence of key `k`, or `none` when `k` is absent (Python would raise
`KeyError`). -/
def dictFind : List (α × β) → α → Option β
  | [], _ => none
  | (k1, v1) :: rest, k => if k1 = k then some v1 else dictFind rest k

/-- Python `k in d`. -/
def dictHas (l : List (α × β)) (k : α) : Bool :=
  (dictFind l k).isSome

/-- Python `d[k] = v`: replace the value at the first occurrence of `k`
in place, or append the pair when `k` is absent. -/
def dictSet : List (α × β) → α → β → List (α × β)
  | [], k, v => [(k, v)]
  | (k1, v1) :: rest, k, v =>
      if k1 = k then (k, v) :: rest else (k1, v1) :: dictSet rest k v

/-- Python `del d[k]` (the callers below only invoke it on present keys):
drop every occurrence of key `k`. -/
def dictDel : List (α × β) → α → List (α × β)
  | [], _ => []
  | (k1, v1) :: rest, k =>
      if k1 = k then dictDel rest k else (k1, v1) :: dictDel rest k

@[simp]
theorem dictFind_nil (k : α) : dictFind ([] : List (α × β)) k = none := rfl

@[simp]
theorem dictFind_cons (k1 : α) (v1 : β) (rest : List (α × β)) (k : α) :
    dictFind ((k1, v1) :: rest) k = if k1 = k then some v1 else dictFind rest k := rfl

@[simp]
theorem dictFind_dictSet_self (l : List (α × β)) (k : α) (v : β) :
    dictFind (dictSet l k v) k = some v := by
  induction l with
  | nil => simp [dictSet]
  | cons hd tl ih =>
      obtain ⟨k1, v1⟩ := hd
      by_cases h : k1 = k <;> simp [dictSet, h, ih]

theorem dictFind_dictSet_ne (l : List (α × β)) (k k2 : α) (v : β) (h : k2 ≠ k) :
    dictFind (dictSet l k v) k2 = dictFind l k2 := by
  have hk : k ≠ k2 := Ne.symm h
  induction l with
  | nil => simp [dictSet, hk]
  | cons hd tl ih =>
      obtain ⟨k1, v1⟩ := hd
      by_cases h1 : k1 = k
      · subst h1
        simp [dictSet, hk]
      · simp only [dictSet, if_neg h1, dictFind_cons]
        by_cases h2 : k1 = k2 <;> simp [h2, ih]

@[simp]
theorem dictFind_dictDel_self (l : List (α × β)) (k : α) :
    dictFind (dictDel l k) k = none := by
  induction l with
  | nil => simp [dictDel]
  | cons hd tl ih =>
      obtain ⟨k1, v1⟩ := hd
      by_cases h : k1 = k <;> simp [dictDel, h, ih]

@[simp]
theorem dictHas_iff (l : List (α × β)) (k : α) :
    dictHas l k = (dictFind l k).isSome := rfl

/-- Key universe of the `rooms` dictionary: `(groupid, sensorid)` tuple
keys, plus bare-integer keys so the membership test `sensorid not in
rooms` performed by `_join` can be stated exactly. -/
inductive PyKey : Type where
  | pair (groupid sensorid : Int)
  | int (n : Int)
deriving DecidableEq, Repr

/-- A WebSocket session handle (`aiohttp.web.WebSocketResponse`),
abstracted to an opaque identifier. -/
abbrev Ws : Type := Nat

/-- A room: Python dict from WebSocket to the subscribed reading-type
filter (an int; `0` is the default set by `_join`). -/
abbrev Room : Type := List (Ws × Int)

/-- The room registry `app["rooms"]`: Python dict keyed by `PyKey`. -/
abbrev Rooms : Type := List (PyKey × Room)

/-- Embedding of `_does_room_exist(rooms, groupid, sensorid)`. -/
def _does_room_exist (rooms : Rooms) (groupid sensorid : Int) : Bool :=
  if ! dictHas rooms (PyKey.pair groupid sensorid) then false else true

/-- Embedding of `_does_ws_exist(rooms, groupid, sensorid, ws)`.  The
inner room lookup `rooms[(groupid, sensorid)]` is guarded by
`_does_room_exist`, so the `getD []` default is never taken. -/
def _does_ws_exist (rooms : Rooms) (groupid sensorid : Int) (ws : Ws) : Bool :=
  if ! _does_room_exist rooms groupid sensorid then false
  else
    if ! dictHas ((dictFind rooms (PyKey.pair groupid sensorid)).getD []) ws then false
    else true

/-- Embedding of `_leave(rooms, groupid, sensorid, ws)`: delete `ws`
from the room only when the room exists and `ws` is in it. -/
def _leave (rooms : Rooms) (groupid sensorid : Int) (ws : Ws) : Rooms :=
  if ! _does_ws_exist rooms groupid sensorid ws then rooms
  else
    dictSet rooms (PyKey.pair groupid sensorid)
      (dictDel ((dictFind rooms (PyKey.pair groupid sensorid)).getD []) ws)

/-- Embedding of `_join(rooms, groupid, sensorid, ws)`.  The source
tests `if sensorid not in rooms` — the bare integer `sensorid` against a
dict whose keys are `(groupid, sensorid)` tuples — before creating the
room, and returns `False` when an exception escapes the body (the only
statement that can raise is the room indexing, when the room key is
absent after the test). -/
def _join (rooms : Rooms) (groupid sensorid : Int) (ws : Ws) : Rooms × Bool :=
  let rooms1 :=
    if ! dictHas rooms (PyKey.int sensorid) then
      dictSet rooms (PyKey.pair groupid sensorid) []
    else rooms
  match dictFind rooms1 (PyKey.pair groupid sensorid) with
  | none => (rooms1, false)
  | some room =>
      if ! dictHas room ws then
        (dictSet rooms1 (PyKey.pair groupid sensorid) (dictSet room ws 0), true)
      else (rooms1, true)

/-- Embedding of `_change_stream(rooms, groupid, sensorid, ws, rtypeid)`.
The room indexing after the membership guard cannot miss; the `none`
branch is unreachable. -/
def _change_stream (rooms : Rooms) (groupid sensorid : Int) (ws : Ws) (rtypeid : Int) :
    Rooms × Bool :=
  if ! _does_ws_exist rooms groupid sensorid ws then (rooms, false)
  else
    match dictFind rooms (PyKey.pair groupid sensorid) with
    | none => (rooms, false)
    | some room =>
        (dictSet rooms (PyKey.pair groupid sensorid) (dictSet room ws rtypeid), true)

/-- A JSON scalar value as the module manipulates it: the readings and
inbound frames are dicts whose values are ints or strings (floats and
other scalars play no role in the verified properties and are
represented by their string form). -/
inductive JVal : Type where
  | i (n : Int)
  | s (v : String)
deriving DecidableEq, Repr

/-- A Python dict with string keys holding JSON scalar values: inbound
frames after `simplejson.loads`, and readings. -/
abbrev Jdict : Type := List (String × JVal)

/-- The `RESP_READING` frame `message` sends: the `cmd` marker and the
single entry of the `readings` list, holding the four fields copied from
the published reading. -/
structure ReadingFrame : Type where
  cmd : String
  rtypeid : JVal
  ts : JVal
  val : JVal
  rstring : JVal
deriving DecidableEq, Repr

/-- Exceptions the broadcaster can raise: a `KeyError` while building
the payload from an incomplete reading, or a transport failure from
`ws.send_str`. -/
inductive SockErr : Type where
  | keyError (k : String)
  | sendError (w : Ws)
deriving DecidableEq, Repr

/-- Observable outcome of one `message` call: the frames actually
delivered (in room iteration order), the exception that escaped the call
if any, and whether the internal `except KeyError` fallback at the
guarded `msg["rtypeid"]` lookup ran. -/
structure MsgResult : Type where
  delivered : List (Ws × ReadingFrame)
  error : Option SockErr
  handlerFired : Bool
deriving DecidableEq, Repr

/-- The send loop at the bottom of `message`: step through the room's
`(ws, rtype)` items in order and send the frame to each member whose
filter equals the reading's `rtypeid`.  The loop body is not guarded, so
a failing `ws.send_str` (modelled by `sendFails`) aborts the whole loop
and the exception escapes; members already sent to keep their frame. -/
def sendLoop (sendFails : Ws → Bool) (frame : ReadingFrame) (rtypeid : JVal) :
    Room → List (Ws × ReadingFrame) × Option SockErr
  | [] => ([], none)
  | (ws, rtype) :: rest =>
      if JVal.i rtype = rtypeid then
        if sendFails ws then ([], some (SockErr.sendError ws))
        else
          let r := sendLoop sendFails frame rtypeid rest
          ((ws, frame) :: r.1, r.2)
      else sendLoop sendFails frame rtypeid rest

/-- Embedding of `message(rooms, groupid, sensorid, msg)`.  Mirrors the
source order: the room-existence guard; the `resp` dict literal, whose
values `msg["rtypeid"]`, `msg["ts"]`, `msg["val"]`, `msg["rstring"]` are
evaluated left to right and raise `KeyError` at the first absent key;
then the `try`-guarded second lookup of `msg["rtypeid"]` whose
`except KeyError` branch logs and returns (flagged by `handlerFired`);
finally the send loop over the room's items. -/
def message (sendFails : Ws → Bool) (rooms : Rooms) (groupid sensorid : Int)
    (msg : Jdict) : MsgResult :=
  if ! _does_room_exist rooms groupid sensorid then ⟨[], none, false⟩
  else
    match dictFind msg "rtypeid" with
    | none => ⟨[], some (SockErr.keyError "rtypeid"), false⟩
    | some mrt =>
        match dictFind msg "ts" with
        | none => ⟨[], some (SockErr.keyError "ts"), false⟩
        | some mts =>
            match dictFind msg "val" with
            | none => ⟨[], some (SockErr.keyError "val"), false⟩
            | some mval =>
                match dictFind msg "rstring" with
                | none => ⟨[], some (SockErr.keyError "rstring"), false⟩
                | some mrs =>
                    let frame : ReadingFrame := ⟨"RESP_READING", mrt, mts, mval, mrs⟩
                    match dictFind msg "rtypeid" with
                    | none => ⟨[], none, true⟩
                    | some rtypeid =>
                        let room := (dictFind rooms (PyKey.pair groupid sensorid)).getD []
                        let r := sendLoop sendFails frame rtypeid room
                        ⟨r.1, r.2, false⟩

/-- Python `int(v)` on a JSON scalar: identity on ints, numeric-string
parse on strings, raising `ValueError` (here `none`) otherwise. -/
def pyInt : JVal → Option Int
  | JVal.i n => some n
  | JVal.s v => v.toInt?

/-- Evaluation of `int(js[k])` in the handler: `KeyError` when the field
is absent, `ValueError` when it is not coercible to an int. -/
def getInt (js : Jdict) (k : String) : Except String Int :=
  match dictFind js k with
  | none => Except.error ("KeyError: " ++ k)
  | some v =>
      match pyInt v with
      | none => Except.error ("ValueError: " ++ k)
      | some n => Except.ok n

/-- Values stored in an outbound response frame dict. -/
inductive RVal : Type where
  | str (s : String)
  | bool (b : Bool)
  | jlist (rs : List Jdict)
  | stats (st : Int)
deriving DecidableEq, Repr

/-- An outbound response frame: the `resp` dict the handler builds and
serializes with `simplejson.dumps` before `ws.send_str`. -/
abbrev Frame : Type := List (String × RVal)

/-- The initial `resp` dict of each loop iteration. -/
def resp0 : Frame := [("cmd", RVal.str "")]

/-- Error text sent on a `simplejson.JSONDecodeError`. -/
def badJsonText : String := "ERROR: Request is not a properly formed JSON message!"

/-- Error text sent when fetching the top-100 readings fails. -/
def streamDbErrText : String :=
  "ERROR: There was an issue retrieving the top 100 readings for the new reading type from the database!"

/-- Error text sent when `_change_stream` reports failure. -/
def changeStreamErrText : String := "ERROR: Unable to change stream!"

/-- Error text sent when `stats_sensor` raises `DBError`. -/
def statsErrText : String :=
  "ERROR: Cannot retrieve reading statistics, there was an issue with the database!"

/-- Error text sent when the download query raises. -/
def downloadErrText : String :=
  "ERROR: Cannot retrieve readings for download, there was an issue with the database!"

/-- Error text of the `WSMsgType.ERROR` branch (the `.format` call on a
percent-style literal returns it unchanged). -/
def wsErrText : String :=
  "ERROR: WebSocket encountered an error: %s\nPlease refresh the page."

/-- The `RESP_ERROR` frame: `resp` with `cmd` overwritten and an `error`
field appended. -/
def respErr (err : String) : Frame :=
  dictSet (dictSet resp0 "cmd" (RVal.str "RESP_ERROR")) "error" (RVal.str err)

/-- The external data gateway `request.app["db"]`, abstracted: each
query either returns its result or raises the storage-level error the
handler catches (`DBError`; the download branch catches everything). -/
structure Db : Type where
  get_readings : Int → Int → Int → Except String (List Jdict)
  stats_sensor : Int → Int → Int → Int → Int → Except String Int
  get_readings_by_period : Int → Int → Int → Int → Except String (List Jdict)

/-- Embedding of `filter_datetime` composed with babel's
`format_datetime`, abstracted to an arbitrary total formatter. -/
abbrev DtFmt : Type := JVal → String

/-- Python `str(v)` on a JSON scalar. -/
def jvalStr : JVal → String
  | JVal.i n => toString n
  | JVal.s v => v

/-- Embedding of `filter_reading(reading)` from `senslify/filters.py`
(the argument is always a dict here, so the type guard passes). -/
def filter_reading (fmtDt : DtFmt) (reading : Jdict) : String :=
  if ! dictHas reading "ts" || ! dictHas reading "val" then
    "Unable to generate format string, reading does not contain all necessary information!"
  else
    "Time: " ++ fmtDt ((dictFind reading "ts").getD (JVal.i 0)) ++ ", Value: " ++
      jvalStr ((dictFind reading "val").getD (JVal.i 0))

/-- Per-connection handler state: the shared room registry, the Python
locals `groupid` and `sensorid` (`none` while still unbound), and the
frames sent to this WebSocket so far. -/
structure HState : Type where
  rooms : Rooms
  groupid? : Option Int
  sensorid? : Option Int
  sent : List Frame
deriving DecidableEq, Repr

/-- One inbound WebSocket message: a TEXT frame whose payload either
fails `simplejson.loads` (`none`) or parses to a JSON dict, or an ERROR
message. -/
inductive WsMsg : Type where
  | text (js? : Option Jdict)
  | errMsg
deriving DecidableEq, Repr

/-- Outcome of one iteration of the `async for` loop: continue with the
next message, `break` out (only `RQST_CLOSE`), or an uncaught exception
escaping the loop body. -/
inductive StepOut : Type where
  | cont (st : HState)
  | brk (st : HState)
  | crash (st : HState) (e : String)
deriving DecidableEq, Repr

/-- Embedding of one iteration of the `ws_handler` message loop.
`verify` stands for `verify_ws_request` (defined in `senslify/verify.py`,
outside the embedded module); `db` for the data gateway.  Locals are
updated in source order, so a coercion failure after `sensorid` was
assigned leaves `sensorid?` set, matching Python's assignment order. -/
def ws_step (verify : Jdict → Bool × String) (db : Db) (fmtDt : DtFmt)
    (ws : Ws) (st : HState) (m : WsMsg) : StepOut :=
  match m with
  | WsMsg.errMsg =>
      StepOut.cont { st with sent := st.sent ++ [[("error", RVal.str wsErrText)]] }
  | WsMsg.text none =>
      StepOut.cont { st with sent := st.sent ++ [respErr badJsonText] }
  | WsMsg.text (some js) =>
      let vr := verify js
      if ! vr.1 then
        StepOut.cont { st with sent := st.sent ++ [respErr vr.2] }
      else
        match dictFind js "cmd" with
        | none => StepOut.crash st "KeyError: cmd"
        | some cmdv =>
            if cmdv = JVal.s "RQST_JOIN" then
              match getInt js "sensorid" with
              | Except.error e => StepOut.crash st e
              | Except.ok sid =>
                  let st1 := { st with sensorid? := some sid }
                  match getInt js "groupid" with
                  | Except.error e => StepOut.crash st1 e
                  | Except.ok gid =>
                      let st2 := { st1 with groupid? := some gid }
                      let jr := _join st2.rooms gid sid ws
                      let resp := dictSet (dictSet resp0 "cmd" (RVal.str "RESP_JOIN"))
                        "join_status" (RVal.bool jr.2)
                      StepOut.cont { st2 with rooms := jr.1, sent := st2.sent ++ [resp] }
            else if cmdv = JVal.s "RQST_CLOSE" then
              match getInt js "sensorid" with
              | Except.error e => StepOut.crash st e
              | Except.ok sid =>
                  let st1 := { st with sensorid? := some sid }
                  match getInt js "groupid" with
                  | Except.error e => StepOut.crash st1 e
                  | Except.ok gid =>
                      let st2 := { st1 with groupid? := some gid }
                      StepOut.brk { st2 with rooms := _leave st2.rooms gid sid ws }
            else if cmdv = JVal.s "RQST_STREAM" then
              match getInt js "sensorid" with
              | Except.error e => StepOut.crash st e
              | Except.ok sid =>
                  let st1 := { st with sensorid? := some sid }
                  match getInt js "groupid" with
                  | Except.error e => StepOut.crash st1 e
                  | Except.ok gid =>
                      let st2 := { st1 with groupid? := some gid }
                      match getInt js "rtypeid" with
                      | Except.error e => StepOut.crash st2 e
                      | Except.ok rtid =>
                          let cs := _change_stream st2.rooms gid sid ws rtid
                          let st3 := { st2 with rooms := cs.1 }
                          let resp1 := dictSet resp0 "cmd" (RVal.str "RESP_STREAM")
                          if cs.2 then
                            match db.get_readings sid gid rtid with
                            | Except.error _ =>
                                StepOut.cont { st3 with sent := st3.sent ++ [respErr streamDbErrText] }
                            | Except.ok readings =>
                                let readings2 := readings.map
                                  (fun r => dictSet r "rstring" (JVal.s (filter_reading fmtDt r)))
                                let resp2 := dictSet resp1 "readings" (RVal.jlist readings2)
                                StepOut.cont { st3 with sent := st3.sent ++ [resp2] }
                          else
                            StepOut.cont { st3 with sent := st3.sent ++ [respErr changeStreamErrText] }
            else if cmdv = JVal.s "RQST_SENSOR_STATS" then
              match getInt js "sensorid" with
              | Except.error e => StepOut.crash st e
              | Except.ok sid =>
                  let st1 := { st with sensorid? := some sid }
                  match getInt js "groupid" with
                  | Except.error e => StepOut.crash st1 e
                  | Except.ok gid =>
                      let st2 := { st1 with groupid? := some gid }
                      match getInt js "rtypeid" with
                      | Except.error e => StepOut.crash st2 e
                      | Except.ok rtid =>
                          match getInt js "start_ts" with
                          | Except.error e => StepOut.crash st2 e
                          | Except.ok sts =>
                              match getInt js "end_ts" with
                              | Except.error e => StepOut.crash st2 e
                              | Except.ok ets =>
                                  let resp1 := dictSet resp0 "cmd" (RVal.str "RESP_SENSOR_STATS")
                                  match db.stats_sensor sid gid rtid sts ets with
                                  | Except.ok stv =>
                                      StepOut.cont { st2 with
                                        sent := st2.sent ++ [dictSet resp1 "stats" (RVal.stats stv)] }
                                  | Except.error _ =>
                                      let resp2 := dictSet (dictSet resp1 "cmd"
                                        (RVal.str "RESP_STATS_ERROR")) "error" (RVal.str statsErrText)
                                      StepOut.cont { st2 with sent := st2.sent ++ [resp2] }
            else if cmdv = JVal.s "RQST_DOWNLOAD" then
              match getInt js "sensorid" with
              | Except.error e => StepOut.crash st e
              | Except.ok sid =>
                  let st1 := { st with sensorid? := some sid }
                  match getInt js "groupid" with
                  | Except.error e => StepOut.crash st1 e
                  | Except.ok gid =>
                      let st2 := { st1 with groupid? := some gid }
                      match getInt js "start_ts" with
                      | Except.error e => StepOut.crash st2 e
                      | Except.ok sts =>
                          match getInt js "end_ts" with
                          | Except.error e => StepOut.crash st2 e
                          | Except.ok ets =>
                              let resp1 := dictSet resp0 "cmd" (RVal.str "RESP_DOWNLOAD")
                              match db.get_readings_by_period sid gid sts ets with
                              | Except.ok docs =>
                                  StepOut.cont { st2 with
                                    sent := st2.sent ++ [dictSet resp1 "data" (RVal.jlist docs)] }
                              | Except.error _ =>
                                  let resp2 := dictSet (dictSet resp1 "cmd"
                                    (RVal.str "RESP_DOWNLOAD_ERROR")) "error" (RVal.str downloadErrText)
                                  StepOut.cont { st2 with sent := st2.sent ++ [resp2] }
            else StepOut.cont st

/-- Outcome of the whole message loop. -/
inductive LoopOut : Type where
  | done (st : HState)
  | crashed (st : HState) (e : String)
deriving DecidableEq, Repr

/-- The `async for msg in ws` loop of `ws_handler` over a finite inbound
message sequence (the sequence ending models the client disconnecting). -/
def ws_loop (verify : Jdict → Bool × String) (db : Db) (fmtDt : DtFmt) (ws : Ws) :
    HState → List WsMsg → LoopOut
  | st, [] => LoopOut.done st
  | st, m :: rest =>
      match ws_step verify db fmtDt ws st m with
      | StepOut.cont st2 => ws_loop verify db fmtDt ws st2 rest
      | StepOut.brk st2 => LoopOut.done st2
      | StepOut.crash st2 e => LoopOut.crashed st2 e

/-- Final outcome of `ws_handler`: normal return, or an exception
escaping the handler (in which case the trailing `_leave` did not run). -/
inductive HandlerResult : Type where
  | ok (rooms : Rooms) (sent : List Frame)
  | exn (e : String) (rooms : Rooms) (sent : List Frame)
deriving DecidableEq, Repr

/-- Embedding of `ws_handler`: run the message loop from an empty local
environment, then execute the trailing
`await _leave(request.app["rooms"], groupid, sensorid, ws)`, which
raises `NameError` when the locals were never assigned (no command
branch ran).  Python evaluates `groupid` first. -/
def ws_handler (verify : Jdict → Bool × String) (db : Db) (fmtDt : DtFmt)
    (ws : Ws) (rooms0 : Rooms) (msgs : List WsMsg) : HandlerResult :=
  match ws_loop verify db fmtDt ws ⟨rooms0, none, none, []⟩ msgs with
  | LoopOut.crashed st e => HandlerResult.exn e st.rooms st.sent
  | LoopOut.done st =>
      match st.groupid? with
      | none => HandlerResult.exn "NameError: groupid" st.rooms st.sent
      | some gid =>
          match st.sensorid? with
          | none => HandlerResult.exn "NameError: sensorid" st.rooms st.sent
          | some sid => HandlerResult.ok (_leave st.rooms gid sid ws) st.sent

/-- One `ws.close(code=GOING_AWAY, message="Server shutdown")` call
recorded by the shutdown coordinator. -/
structure CloseCall : Type where
  ws : Ws
  code : Nat
  message : String
deriving DecidableEq, Repr

/-- The effect of `await ws.close(...)` on the closed-state of the
sockets: the closed socket reports `closed` from then on. -/
def markClosed (closed : Ws → Bool) (ws : Ws) : Ws → Bool :=
  fun w => if w = ws then true else closed w

/-- The inner loop of `socket_shutdown_handler` over one room's
WebSockets: close each one not already closed; `ws.close` marks the
socket closed, so a socket met again later is skipped. -/
def shutdownRoom (closed : Ws → Bool) : Room → (Ws → Bool) × List CloseCall
  | [] => (closed, [])
  | (ws, _) :: rest =>
      if ! closed ws then
        let r := shutdownRoom (markClosed closed ws) rest
        (r.1, ⟨ws, 1001, "Server shutdown"⟩ :: r.2)
      else shutdownRoom closed rest

/-- Embedding of `socket_shutdown_handler(app)`: iterate every room of
the registry in order and close every still-open WebSocket in it with
close code `GOING_AWAY` (1001) and message `"Server shutdown"`.
Returns the final closed-state of every socket and the close calls
issued, in order. -/
def socket_shutdown_handler (closed : Ws → Bool) : Rooms → (Ws → Bool) × List CloseCall
  | [] => (closed, [])
  | (_, room) :: rest =>
      let r := shutdownRoom closed room
      let r2 := socket_shutdown_handler r.1 rest
      (r2.1, r.2 ++ r2.2)

theorem does_ws_exist_eq_true (rooms : Rooms) (groupid sensorid : Int) (ws : Ws) :
    _does_ws_exist rooms groupid sensorid ws = true ↔
      ∃ room, dictFind rooms (PyKey.pair groupid sensorid) = some room ∧
        dictHas room ws = true := by
  unfold _does_ws_exist _does_room_exist
  cases h : dictFind rooms (PyKey.pair groupid sensorid) with
  | none => simp [dictHas, h]
  | some room =>
      by_cases hws : dictHas room ws <;>
        simp [dictHas, h, hws, Option.ne_none_iff_isSome]

theorem does_ws_exist_eq_false (rooms : Rooms) (groupid sensorid : Int) (ws : Ws) :
    _does_ws_exist rooms groupid sensorid ws = false ↔
      ∀ room, dictFind rooms (PyKey.pair groupid sensorid) = some room →
        dictHas room ws = false := by
  rw [← Bool.not_eq_true, does_ws_exist_eq_true]
  constructor
  · intro h room hroom
    by_contra hmem
    exact h ⟨room, hroom, by simpa [Option.isSome_iff_ne_none] using hmem⟩
  · rintro h ⟨room, hroom, hmem⟩
    rw [h room hroom] at hmem
    exact Bool.false_ne_true hmem

theorem leave_after_exists_false (rooms : Rooms) (groupid sensorid : Int) (ws : Ws) :
    _does_ws_exist (_leave rooms groupid sensorid ws) groupid sensorid ws = false := by
  by_cases h : _does_ws_exist rooms groupid sensorid ws
  · rw [does_ws_exist_eq_false]
    intro room hroom
    unfold _leave at hroom
    rw [if_neg (by simp [h])] at hroom
    rw [dictFind_dictSet_self] at hroom
    cases hroom
    simp [dictHas]
  · simp only [Bool.not_eq_true] at h
    unfold _leave
    rw [if_pos (by simp [h])]
    exact h

theorem leave_noop (rooms : Rooms) (groupid sensorid : Int) (ws : Ws)
    (h : _does_ws_exist rooms groupid sensorid ws = false) :
    _leave rooms groupid sensorid ws = rooms := by
  unfold _leave
  rw [if_pos (by simp [h])]

/-- C1: the claim says `_join` is idempotent and that joining with a
session already present is a no-op success.  In the code the
room-existence test compares the bare `sensorid` against the registry's
tuple keys, so it never finds the room and recreates it on every call:
joining a room `(1, 5)` that already holds the caller `7` with filter
`3` and a sibling `8` with filter `2` wipes the sibling and resets the
caller's filter to the default `0` — not a no-op.  This theorem
evaluates `_join` at that failing input. -/
theorem join_on_member_resets_room :
    _join [(PyKey.pair 1 5, [(7, 3), (8, 2)])] 1 5 7 =
      ([(PyKey.pair 1 5, [(7, 0)])], true) := by decide

/-- C6: `_leave` is a total no-op when the room or the session is
absent (no state change, no error); after any `_leave` the session is
gone from the room; leaving twice equals leaving once; and when room
and session both exist, `_leave` updates exactly that room, deleting
exactly that session's entry. -/
theorem leave_spec (rooms : Rooms) (groupid sensorid : Int) (ws : Ws) :
    (_does_ws_exist rooms groupid sensorid ws = false →
        _leave rooms groupid sensorid ws = rooms) ∧
    _does_ws_exist (_leave rooms groupid sensorid ws) groupid sensorid ws = false ∧
    _leave (_leave rooms groupid sensorid ws) groupid sensorid ws =
      _leave rooms groupid sensorid ws ∧
    (∀ room, dictFind rooms (PyKey.pair groupid sensorid) = some room →
        dictHas room ws = true →
        _leave rooms groupid sensorid ws =
          dictSet rooms (PyKey.pair groupid sensorid) (dictDel room ws)) := by
  refine ⟨leave_noop rooms groupid sensorid ws,
    leave_after_exists_false rooms groupid sensorid ws,
    leave_noop _ groupid sensorid ws (leave_after_exists_false rooms groupid sensorid ws),
    fun room hroom hmem => ?_⟩
  have h : _does_ws_exist rooms groupid sensorid ws = true :=
    (does_ws_exist_eq_true rooms groupid sensorid ws).mpr ⟨room, hroom, hmem⟩
  unfold _leave
  rw [if_neg (by simp [h]), hroom]
  rfl

/-- Witness for `leave_spec`: the no-op conjunct at a non-member input
and the deletion conjunct at a member input. -/
theorem leave_spec_witness :
    _leave [(PyKey.pair 0 0, [(1, 2)])] 0 0 5 = [(PyKey.pair 0 0, [(1, 2)])] ∧
    _leave [(PyKey.pair 0 0, [(1, 2)])] 0 0 1 =
      dictSet [(PyKey.pair 0 0, [(1, 2)])] (PyKey.pair 0 0) (dictDel [(1, 2)] 1) :=
  ⟨(leave_spec [(PyKey.pair 0 0, [(1, 2)])] 0 0 5).1 (by decide),
   (leave_spec [(PyKey.pair 0 0, [(1, 2)])] 0 0 1).2.2.2 [(1, 2)] (by decide) (by decide)⟩

theorem change_stream_nonmember (rooms : Rooms) (groupid sensorid : Int) (ws : Ws)
    (rtypeid : Int) (h : _does_ws_exist rooms groupid sensorid ws = false) :
    _change_stream rooms groupid sensorid ws rtypeid = (rooms, false) := by
  unfold _change_stream
  rw [if_pos (by simp [h])]

/-- C5: `_change_stream` returns `true` and sets the session's filter
to `rtypeid` exactly when the session is a member of the room; on a
non-member (or missing room) it returns `false` with the registry
unchanged, and the dispatcher then answers the `RQST_STREAM` frame with
a `RESP_ERROR` response on the same session and continues the loop
instead of closing the connection. -/
theorem change_stream_spec (verify : Jdict → Bool × String) (db : Db) (fmtDt : DtFmt)
    (ws : Ws) (st : HState) (js : Jdict) (rooms : Rooms)
    (groupid sensorid rtypeid : Int) :
    (_does_ws_exist rooms groupid sensorid ws = true →
        (_change_stream rooms groupid sensorid ws rtypeid).2 = true ∧
        ∃ room2, dictFind (_change_stream rooms groupid sensorid ws rtypeid).1
            (PyKey.pair groupid sensorid) = some room2 ∧
          dictFind room2 ws = some rtypeid) ∧
    (_does_ws_exist rooms groupid sensorid ws = false →
        _change_stream rooms groupid sensorid ws rtypeid = (rooms, false)) ∧
    ((verify js).1 = true →
      dictFind js "cmd" = some (JVal.s "RQST_STREAM") →
      getInt js "sensorid" = Except.ok sensorid →
      getInt js "groupid" = Except.ok groupid →
      getInt js "rtypeid" = Except.ok rtypeid →
      _does_ws_exist st.rooms groupid sensorid ws = false →
      ws_step verify db fmtDt ws st (WsMsg.text (some js)) =
        StepOut.cont { st with groupid? := some groupid,
                               sensorid? := some sensorid,
                               sent := st.sent ++ [respErr changeStreamErrText] }) := by
  refine ⟨fun h => ?_, change_stream_nonmember rooms groupid sensorid ws rtypeid,
    fun hv hcmd hs hg hrt hmem => ?_⟩
  · obtain ⟨room, hroom, hws⟩ := (does_ws_exist_eq_true rooms groupid sensorid ws).mp h
    unfold _change_stream
    rw [if_neg (by simp [h]), hroom]
    exact ⟨rfl, dictSet room ws rtypeid, dictFind_dictSet_self .., dictFind_dictSet_self ..⟩
  · have hcs := change_stream_nonmember st.rooms groupid sensorid ws rtypeid hmem
    simp only [ws_step, hv, hcmd, hs, hg, hrt, hcs, Bool.not_true, Bool.false_eq_true,
      if_false, if_neg (by decide : ¬(JVal.s "RQST_STREAM" = JVal.s "RQST_JOIN")),
      if_neg (by decide : ¬(JVal.s "RQST_STREAM" = JVal.s "RQST_CLOSE")),
      if_pos (rfl : JVal.s "RQST_STREAM" = JVal.s "RQST_STREAM")]
    simp

/-- Test fixture: a verifier that accepts every frame. -/
def verifyOk : Jdict → Bool × String := fun _ => (true, "")

/-- Test fixture: a data gateway whose queries all succeed with empty
results. -/
def dbOk : Db :=
  ⟨fun _ _ _ => Except.ok [], fun _ _ _ _ _ => Except.ok 0, fun _ _ _ _ => Except.ok []⟩

/-- Test fixture: a constant datetime formatter. -/
def fmt0 : DtFmt := fun _ => "dt"

/-- Test fixture: a well-formed `RQST_STREAM` frame for sensor 3 of
group 2, switching to reading type 9. -/
def jsStream : Jdict :=
  [("cmd", JVal.s "RQST_STREAM"), ("sensorid", JVal.i 3),
   ("groupid", JVal.i 2), ("rtypeid", JVal.i 9)]

/-- Witness for `change_stream_spec`: the member conjunct on a one-room
registry, the non-member conjunct on the empty registry, and the
dispatcher conjunct on a fresh connection that never joined. -/
theorem change_stream_spec_witness :
    ((_change_stream [(PyKey.pair 2 3, [(4, 0)])] 2 3 4 9).2 = true ∧
      ∃ room2, dictFind (_change_stream [(PyKey.pair 2 3, [(4, 0)])] 2 3 4 9).1
          (PyKey.pair 2 3) = some room2 ∧ dictFind room2 4 = some 9) ∧
    _change_stream [] 2 3 4 9 = ([], false) ∧
    ws_step verifyOk dbOk fmt0 4 ⟨[], none, none, []⟩ (WsMsg.text (some jsStream)) =
      StepOut.cont ⟨[], some 2, some 3, [respErr changeStreamErrText]⟩ :=
  ⟨(change_stream_spec verifyOk dbOk fmt0 4 ⟨[], none, none, []⟩ jsStream
      [(PyKey.pair 2 3, [(4, 0)])] 2 3 9).1 (by decide),
   (change_stream_spec verifyOk dbOk fmt0 4 ⟨[], none, none, []⟩ jsStream [] 2 3 9).2.1
      (by decide),
   (change_stream_spec verifyOk dbOk fmt0 4 ⟨[], none, none, []⟩ jsStream [] 2 3 9).2.2
      rfl rfl rfl rfl rfl (by decide)⟩

theorem sendLoop_no_failure (frame : ReadingFrame) (T : Int) (room : Room) :
    sendLoop (fun _ => false) frame (JVal.i T) room =
      ((room.filter (fun p => p.2 == T)).map (fun p => (p.1, frame)), none) := by
  induction room with
  | nil => simp [sendLoop]
  | cons hd tl ih =>
      obtain ⟨w, t⟩ := hd
      by_cases h : t = T
      · subst h
        simp [sendLoop, ih]
      · simp [sendLoop, h, ih]

/-- C2: with every send succeeding, `message` delivers the
`RESP_READING` frame carrying the reading's `rtypeid`, `ts`, `val` and
`rstring` to exactly the sessions of the room whose filter equals the
reading's type `T`, in room order; sessions whose filter differs (the
default `0` included, when `T` is nonzero) receive nothing. -/
theorem message_delivers_exactly_matching (rooms : Rooms) (groupid sensorid T : Int)
    (msg : Jdict) (room : Room) (mts mval mrs : JVal)
    (hroom : dictFind rooms (PyKey.pair groupid sensorid) = some room)
    (hrt : dictFind msg "rtypeid" = some (JVal.i T))
    (hts : dictFind msg "ts" = some mts)
    (hval : dictFind msg "val" = some mval)
    (hrs : dictFind msg "rstring" = some mrs) :
    (message (fun _ => false) rooms groupid sensorid msg).delivered =
      (room.filter (fun p => p.2 == T)).map
        (fun p => (p.1, ⟨"RESP_READING", JVal.i T, mts, mval, mrs⟩)) ∧
    (message (fun _ => false) rooms groupid sensorid msg).error = none ∧
    (∀ w fr, (w, fr) ∈ (message (fun _ => false) rooms groupid sensorid msg).delivered ↔
        ((w, T) ∈ room ∧ fr = ⟨"RESP_READING", JVal.i T, mts, mval, mrs⟩)) := by
  have hex : _does_room_exist rooms groupid sensorid = true := by
    simp [_does_room_exist, dictHas, hroom]
  have hmsg : message (fun _ => false) rooms groupid sensorid msg =
      ⟨(room.filter (fun p => p.2 == T)).map
          (fun p => (p.1, ⟨"RESP_READING", JVal.i T, mts, mval, mrs⟩)), none, false⟩ := by
    simp [message, hex, hrt, hts, hval, hrs, hroom, sendLoop_no_failure]
  refine ⟨by rw [hmsg], by rw [hmsg], fun w fr => ?_⟩
  rw [hmsg]
  simp only [List.mem_map, List.mem_filter]
  constructor
  · rintro ⟨⟨w2, t2⟩, ⟨hmem, hteq⟩, heq⟩
    cases heq
    simp only [beq_iff_eq] at hteq
    subst hteq
    exact ⟨hmem, rfl⟩
  · rintro ⟨hmem, rfl⟩
    exact ⟨(w, T), ⟨hmem, by simp⟩, rfl⟩

/-- C3, counterexample to the claim as stated: in a room with two
sessions both subscribed to type 3, a send failure on the first session
leaves the second undelivered and the exception escapes `message`,
instead of delivery continuing to the sibling. -/
theorem message_send_failure_not_isolated :
    message (fun w => w == 1) [(PyKey.pair 0 0, [(1, 3), (2, 3)])] 0 0
        [("rtypeid", JVal.i 3), ("ts", JVal.i 0), ("val", JVal.i 0),
         ("rstring", JVal.s "r")] =
      ⟨[], some (SockErr.sendError 1), false⟩ := by decide

theorem sendLoop_first_failure (f : Ws → Bool) (frame : ReadingFrame) (T : Int)
    (pre post : Room) (wbad : Ws)
    (hpre : ∀ p ∈ pre, p.2 = T → f p.1 = false)
    (hfail : f wbad = true) :
    sendLoop f frame (JVal.i T) (pre ++ (wbad, T) :: post) =
      ((pre.filter (fun p => p.2 == T)).map (fun p => (p.1, frame)),
        some (SockErr.sendError wbad)) := by
  induction pre with
  | nil => simp [sendLoop, hfail]
  | cons hd tl ih =>
      obtain ⟨w, t⟩ := hd
      have htl : ∀ p ∈ tl, p.2 = T → f p.1 = false :=
        fun p hp hpt => hpre p (List.mem_cons_of_mem _ hp) hpt
      by_cases h : t = T
      · have hw : f w = false := hpre (w, t) (List.mem_cons_self _ _) h
        subst h
        simp [sendLoop, hw, ih htl]
      · simp [sendLoop, h, ih htl]

/-- C3, amended: a failing send to a filter-matching session is not
isolated — the exception escapes `message` and aborts the broadcast, so
only the matching sessions that precede the first failing one in room
order receive the frame, and every later session receives nothing. -/
theorem message_send_failure_aborts (f : Ws → Bool) (rooms : Rooms)
    (groupid sensorid T : Int) (msg : Jdict) (pre post : Room) (wbad : Ws)
    (mts mval mrs : JVal)
    (hroom : dictFind rooms (PyKey.pair groupid sensorid) =
      some (pre ++ (wbad, T) :: post))
    (hrt : dictFind msg "rtypeid" = some (JVal.i T))
    (hts : dictFind msg "ts" = some mts)
    (hval : dictFind msg "val" = some mval)
    (hrs : dictFind msg "rstring" = some mrs)
    (hpre : ∀ p ∈ pre, p.2 = T → f p.1 = false)
    (hfail : f wbad = true) :
    message f rooms groupid sensorid msg =
      ⟨(pre.filter (fun p => p.2 == T)).map
          (fun p => (p.1, ⟨"RESP_READING", JVal.i T, mts, mval, mrs⟩)),
        some (SockErr.sendError wbad), false⟩ := by
  have hex : _does_room_exist rooms groupid sensorid = true := by
    simp [_does_room_exist, dictHas, hroom]
  simp [message, hex, hrt, hts, hval, hrs, hroom,
    sendLoop_first_failure f _ T pre post wbad hpre hfail]

/-- Witness for `message_send_failure_aborts`: session 5 (matching,
before the failing session 1) is delivered; sessions 6 (non-matching)
and 2 (after the failure) are not; the error escapes. -/
theorem message_send_failure_aborts_witness :
    message (fun w => w == 1)
        [(PyKey.pair 0 0, [(5, 3), (6, 2), (1, 3), (2, 3)])] 0 0
        [("rtypeid", JVal.i 3), ("ts", JVal.i 7), ("val", JVal.i 8),
         ("rstring", JVal.s "r")] =
      ⟨[(5, ⟨"RESP_READING", JVal.i 3, JVal.i 7, JVal.i 8, JVal.s "r"⟩)],
        some (SockErr.sendError 1), false⟩ :=
  message_send_failure_aborts (fun w => w == 1)
    [(PyKey.pair 0 0, [(5, 3), (6, 2), (1, 3), (2, 3)])] 0 0 3
    [("rtypeid", JVal.i 3), ("ts", JVal.i 7), ("val", JVal.i 8), ("rstring", JVal.s "r")]
    [(5, 3), (6, 2)] [(2, 3)] 1 (JVal.i 7) (JVal.i 8) (JVal.s "r")
    rfl rfl rfl rfl rfl (by decide) rfl

/-- Witness for `message_delivers_exactly_matching`: a room holding a
matching session 1 (filter 3) and a defaulted session 2 (filter 0); only
session 1 receives the frame. -/
theorem message_delivers_exactly_matching_witness :
    (message (fun _ => false) [(PyKey.pair 0 0, [(1, 3), (2, 0)])] 0 0
        [("rtypeid", JVal.i 3), ("ts", JVal.i 7), ("val", JVal.i 8),
         ("rstring", JVal.s "r")]).delivered =
      ([(1, 3)].filter (fun p => p.2 == 3)).map
        (fun p => (p.1, ⟨"RESP_READING", JVal.i 3, JVal.i 7, JVal.i 8, JVal.s "r"⟩)) ++ [] :=
  by
  have h := message_delivers_exactly_matching
    [(PyKey.pair 0 0, [(1, 3), (2, 0)])] 0 0 3
    [("rtypeid", JVal.i 3), ("ts", JVal.i 7), ("val", JVal.i 8), ("rstring", JVal.s "r")]
    [(1, 3), (2, 0)] (JVal.i 7) (JVal.i 8) (JVal.s "r") rfl rfl rfl rfl rfl
  rw [h.1]
  decide

/-- C10: building the `RESP_READING` payload looks up `msg["rtypeid"]`,
`msg["ts"]`, `msg["val"]` and `msg["rstring"]` before the `try`-guarded
`msg["rtypeid"]` lookup runs, so a reading missing any of those keys
raises `KeyError` out of `message` with nothing delivered, and the
internal `except KeyError` fallback can never fire on any input. -/
theorem message_keyerror_handler_dead (sendFails : Ws → Bool) (rooms : Rooms)
    (groupid sensorid : Int) (msg : Jdict) :
    (message sendFails rooms groupid sensorid msg).handlerFired = false ∧
    (_does_room_exist rooms groupid sensorid = true →
      dictFind msg "rtypeid" = none →
      message sendFails rooms groupid sensorid msg =
        ⟨[], some (SockErr.keyError "rtypeid"), false⟩) ∧
    (_does_room_exist rooms groupid sensorid = true →
      (dictFind msg "rtypeid" = none ∨ dictFind msg "ts" = none ∨
        dictFind msg "val" = none ∨ dictFind msg "rstring" = none) →
      ∃ k, message sendFails rooms groupid sensorid msg =
        ⟨[], some (SockErr.keyError k), false⟩) := by
  refine ⟨?_, fun hex hrt => by simp [message, hex, hrt], fun hex hmiss => ?_⟩
  · by_cases hex : _does_room_exist rooms groupid sensorid
    · rcases hrt : dictFind msg "rtypeid" with _ | mrt
      · simp [message, hex, hrt]
      · rcases hts : dictFind msg "ts" with _ | mts
        · simp [message, hex, hrt, hts]
        · rcases hval : dictFind msg "val" with _ | mval
          · simp [message, hex, hrt, hts, hval]
          · rcases hrs : dictFind msg "rstring" with _ | mrs
            · simp [message, hex, hrt, hts, hval, hrs]
            · simp [message, hex, hrt, hts, hval, hrs]
    · simp only [Bool.not_eq_true] at hex
      simp [message, hex]
  · rcases hrt : dictFind msg "rtypeid" with _ | mrt
    · exact ⟨"rtypeid", by simp [message, hex, hrt]⟩
    · rcases hts : dictFind msg "ts" with _ | mts
      · exact ⟨"ts", by simp [message, hex, hrt, hts]⟩
      · rcases hval : dictFind msg "val" with _ | mval
        · exact ⟨"val", by simp [message, hex, hrt, hts, hval]⟩
        · rcases hrs : dictFind msg "rstring" with _ | mrs
          · exact ⟨"rstring", by simp [message, hex, hrt, hts, hval, hrs]⟩
          · rcases hmiss with h | h | h | h <;> simp_all

/-- Witness for `message_keyerror_handler_dead`: a reading lacking the
`ts` field raises `KeyError` out of the broadcaster. -/
theorem message_keyerror_handler_dead_witness :
    ∃ k, message (fun _ => false) [(PyKey.pair 0 0, [(1, 3)])] 0 0
        [("rtypeid", JVal.i 3)] = ⟨[], some (SockErr.keyError k), false⟩ :=
  (message_keyerror_handler_dead (fun _ => false) [(PyKey.pair 0 0, [(1, 3)])] 0 0
      [("rtypeid", JVal.i 3)]).2.2 (by decide) (by decide)

/-- Test fixture: a well-formed `RQST_JOIN` frame for room (1, 5). -/
def jsJoin : Jdict :=
  [("cmd", JVal.s "RQST_JOIN"), ("sensorid", JVal.i 5), ("groupid", JVal.i 1)]

/-- Test fixture: a well-formed `RQST_SENSOR_STATS` frame naming the
distinct room (2, 6). -/
def jsStats26 : Jdict :=
  [("cmd", JVal.s "RQST_SENSOR_STATS"), ("sensorid", JVal.i 6), ("groupid", JVal.i 2),
   ("rtypeid", JVal.i 3), ("start_ts", JVal.i 0), ("end_ts", JVal.i 9)]

/-- C4: the claim says the handler's final cleanup always removes the
session from its room and never raises.  The trailing `_leave` reads the
Python locals `groupid`/`sensorid`: a connection that closes without
processing any command raises `NameError` (first conjunct, for every
verifier, gateway, session and registry), and the cleanup only targets
the room named by the last command processed, so a session that joined
room (1, 5) and last requested stats for (2, 6) is left behind in room
(1, 5) (second conjunct, evaluated). -/
theorem ws_handler_cleanup_incomplete :
    (∀ (verify : Jdict → Bool × String) (db : Db) (fmtDt : DtFmt) (ws : Ws)
        (rooms0 : Rooms),
      ws_handler verify db fmtDt ws rooms0 [] =
        HandlerResult.exn "NameError: groupid" rooms0 []) ∧
    ws_handler verifyOk dbOk fmt0 7 []
        [WsMsg.text (some jsJoin), WsMsg.text (some jsStats26)] =
      HandlerResult.ok [(PyKey.pair 1 5, [(7, 0)])]
        [[("cmd", RVal.str "RESP_JOIN"), ("join_status", RVal.bool true)],
         [("cmd", RVal.str "RESP_SENSOR_STATS"), ("stats", RVal.stats 0)]] ∧
    _does_ws_exist [(PyKey.pair 1 5, [(7, 0)])] 1 5 7 = true := by
  refine ⟨fun verify db fmtDt ws rooms0 => ?_, by decide, by decide⟩
  simp [ws_handler, ws_loop]

/-- C7: an unparsable text frame makes the dispatcher answer with a
`RESP_ERROR` frame on the same session, with no effect on the registry
or the locals, and the loop goes on processing the remaining frames;
and the only frame on which the dispatcher breaks out of the loop is a
`RQST_CLOSE` command. -/
theorem malformed_frame_not_fatal (verify : Jdict → Bool × String) (db : Db)
    (fmtDt : DtFmt) (ws : Ws) (st : HState) (rest : List WsMsg) :
    ws_step verify db fmtDt ws st (WsMsg.text none) =
      StepOut.cont { st with sent := st.sent ++ [respErr badJsonText] } ∧
    ws_loop verify db fmtDt ws st (WsMsg.text none :: rest) =
      ws_loop verify db fmtDt ws { st with sent := st.sent ++ [respErr badJsonText] } rest ∧
    (∀ (m : WsMsg) (st2 : HState),
      ws_step verify db fmtDt ws st m = StepOut.brk st2 →
      ∃ js, m = WsMsg.text (some js) ∧
        dictFind js "cmd" = some (JVal.s "RQST_CLOSE")) := by
  refine ⟨rfl, by simp [ws_loop, ws_step], fun m st2 hbrk => ?_⟩
  cases m with
  | errMsg => simp [ws_step] at hbrk
  | text js? =>
      cases js? with
      | none => simp [ws_step] at hbrk
      | some js =>
          refine ⟨js, rfl, ?_⟩
          by_cases hv : (verify js).1
          · rcases hcmd : dictFind js "cmd" with _ | cmdv
            · simp [ws_step, hv, hcmd] at hbrk
            · simp only [ws_step, hv, hcmd, Bool.not_true, Bool.false_eq_true,
                if_false] at hbrk
              repeat' split at hbrk
              all_goals simp_all
          · have hv2 : (verify js).1 = false := by simpa using hv
            simp [ws_step, hv2] at hbrk

/-- Test fixture: a well-formed `RQST_CLOSE` frame for room (1, 5). -/
def jsClose : Jdict :=
  [("cmd", JVal.s "RQST_CLOSE"), ("sensorid", JVal.i 5), ("groupid", JVal.i 1)]

/-- Witness for `malformed_frame_not_fatal`: the only-close-breaks
conjunct applied to a concrete `RQST_CLOSE` step. -/
theorem malformed_frame_not_fatal_witness :
    ∃ js, WsMsg.text (some jsClose) = WsMsg.text (some js) ∧
      dictFind js "cmd" = some (JVal.s "RQST_CLOSE") :=
  (malformed_frame_not_fatal verifyOk dbOk fmt0 7 ⟨[], none, none, []⟩ []).2.2
    (WsMsg.text (some jsClose)) ⟨[], some 1, some 5, []⟩ (by decide)

/-- C8: when the gateway's `stats_sensor` raises `DBError` on a
`RQST_SENSOR_STATS` frame, the dispatcher sends a `RESP_STATS_ERROR`
frame carrying an error message on the same session, does not let the
fault escape the handler (the step continues rather than crashing), and
the loop keeps processing the remaining frames on the open connection. -/
theorem stats_db_error_reported (verify : Jdict → Bool × String) (db : Db)
    (fmtDt : DtFmt) (ws : Ws) (st : HState) (js : Jdict)
    (sid gid rtid sts ets : Int) (e : String) (rest : List WsMsg)
    (hv : (verify js).1 = true)
    (hcmd : dictFind js "cmd" = some (JVal.s "RQST_SENSOR_STATS"))
    (hs : getInt js "sensorid" = Except.ok sid)
    (hg : getInt js "groupid" = Except.ok gid)
    (hrt : getInt js "rtypeid" = Except.ok rtid)
    (hst : getInt js "start_ts" = Except.ok sts)
    (het : getInt js "end_ts" = Except.ok ets)
    (hdb : db.stats_sensor sid gid rtid sts ets = Except.error e) :
    ws_step verify db fmtDt ws st (WsMsg.text (some js)) =
      StepOut.cont { st with groupid? := some gid,
                             sensorid? := some sid,
                             sent := st.sent ++
                               [[("cmd", RVal.str "RESP_STATS_ERROR"),
                                 ("error", RVal.str statsErrText)]] } ∧
    ws_loop verify db fmtDt ws st (WsMsg.text (some js) :: rest) =
      ws_loop verify db fmtDt ws
        { st with groupid? := some gid,
                  sensorid? := some sid,
                  sent := st.sent ++
                    [[("cmd", RVal.str "RESP_STATS_ERROR"),
                      ("error", RVal.str statsErrText)]] } rest := by
  have hstep : ws_step verify db fmtDt ws st (WsMsg.text (some js)) =
      StepOut.cont { st with groupid? := some gid,
                             sensorid? := some sid,
                             sent := st.sent ++
                               [[("cmd", RVal.str "RESP_STATS_ERROR"),
                                 ("error", RVal.str statsErrText)]] } := by
    simp only [ws_step, hv, hcmd, hs, hg, hrt, hst, het, hdb, Bool.not_true,
      Bool.false_eq_true, if_false,
      if_neg (by decide : ¬(JVal.s "RQST_SENSOR_STATS" = JVal.s "RQST_JOIN")),
      if_neg (by decide : ¬(JVal.s "RQST_SENSOR_STATS" = JVal.s "RQST_CLOSE")),
      if_neg (by decide : ¬(JVal.s "RQST_SENSOR_STATS" = JVal.s "RQST_STREAM")),
      if_pos (rfl : JVal.s "RQST_SENSOR_STATS" = JVal.s "RQST_SENSOR_STATS")]
    simp [resp0, dictSet, statsErrText]
  exact ⟨hstep, by simp [ws_loop, hstep]⟩

/-- Test fixture: a gateway whose `stats_sensor` always raises
`DBError`. -/
def dbStatsFail : Db :=
  ⟨fun _ _ _ => Except.ok [], fun _ _ _ _ _ => Except.error "DBError",
   fun _ _ _ _ => Except.ok []⟩

/-- Witness for `stats_db_error_reported`: the concrete stats frame of
the spec scenario against the failing gateway. -/
theorem stats_db_error_reported_witness :
    ws_step verifyOk dbStatsFail fmt0 7 ⟨[], none, none, []⟩
        (WsMsg.text (some jsStats26)) =
      StepOut.cont ⟨[], some 2, some 6,
        [[("cmd", RVal.str "RESP_STATS_ERROR"), ("error", RVal.str statsErrText)]]⟩ :=
  (stats_db_error_reported verifyOk dbStatsFail fmt0 7 ⟨[], none, none, []⟩ jsStats26
    6 2 3 0 9 "DBError" [] rfl rfl rfl rfl rfl rfl rfl rfl).1

/-- Membership of a WebSocket in one room's member dict. -/
def wsInRoom (room : Room) (w : Ws) : Bool :=
  room.any (fun p => p.1 == w)

/-- Membership of a WebSocket in any room of the registry. -/
def wsInRooms (rooms : Rooms) (w : Ws) : Bool :=
  rooms.any (fun pr => wsInRoom pr.2 w)

theorem shutdownRoom_spec (room : Room) (closed : Ws → Bool) (w : Ws) :
    (shutdownRoom closed room).1 w = (closed w || wsInRoom room w) ∧
    List.countP (fun c => c.ws == w) (shutdownRoom closed room).2 =
      (if closed w = false ∧ wsInRoom room w = true then 1 else 0) ∧
    (∀ c ∈ (shutdownRoom closed room).2,
      c.code = 1001 ∧ c.message = "Server shutdown") := by
  induction room generalizing closed with
  | nil => simp [shutdownRoom, wsInRoom]
  | cons hd tl ih =>
      obtain ⟨w0, t0⟩ := hd
      by_cases hc : closed w0
      · have h := ih closed
        have hskip : shutdownRoom closed ((w0, t0) :: tl) = shutdownRoom closed tl := by
          simp [shutdownRoom, hc]
        rw [hskip]
        by_cases hw : w0 = w
        · subst hw
          refine ⟨by simp [wsInRoom, hc, h.1], ?_, h.2.2⟩
          rw [h.2.1]
          simp [hc]
        · have hin : wsInRoom ((w0, t0) :: tl) w = wsInRoom tl w := by
            simp [wsInRoom, List.any_cons, hw]
          rw [hin]
          exact h
      · have hc2 : closed w0 = false := by simpa using hc
        have h := ih (markClosed closed w0)
        have hstep : shutdownRoom closed ((w0, t0) :: tl) =
            ((shutdownRoom (markClosed closed w0) tl).1,
              ⟨w0, 1001, "Server shutdown"⟩ ::
                (shutdownRoom (markClosed closed w0) tl).2) := by
          simp [shutdownRoom, hc2]
        rw [hstep]
        by_cases hw : w0 = w
        · subst hw
          refine ⟨by rw [h.1]; simp [markClosed, wsInRoom, hc2], ?_, ?_⟩
          · rw [List.countP_cons, h.2.1]
            simp [markClosed, wsInRoom, hc2]
          · intro c hcmem
            rcases List.mem_cons.mp hcmem with hcm | hcm
            · subst hcm
              exact ⟨rfl, rfl⟩
            · exact h.2.2 c hcm
        · have hw2 : w ≠ w0 := fun hh => hw hh.symm
          have hin : wsInRoom ((w0, t0) :: tl) w = wsInRoom tl w := by
            simp [wsInRoom, List.any_cons, hw]
          refine ⟨by rw [h.1]; simp [markClosed, hw2, hin], ?_, ?_⟩
          · rw [List.countP_cons, h.2.1]
            simp [markClosed, hw2, hin, hw]
          · intro c hcmem
            rcases List.mem_cons.mp hcmem with hcm | hcm
            · subst hcm
              exact ⟨rfl, rfl⟩
            · exact h.2.2 c hcm

/-- C9: the shutdown coordinator walks every room (empty rooms
included) and closes, with close code `GOING_AWAY` (1001) and message
`"Server shutdown"`, exactly the sessions that were still open and
belong to some room — each exactly once even when it sits in several
rooms, because `ws.close` marks it closed — and skips already-closed
sessions without error. -/
theorem shutdown_spec (rooms : Rooms) (closed : Ws → Bool) (w : Ws) :
    (∀ c ∈ (socket_shutdown_handler closed rooms).2,
        c.code = 1001 ∧ c.message = "Server shutdown") ∧
    List.countP (fun c => c.ws == w) (socket_shutdown_handler closed rooms).2 =
      (if closed w = false ∧ wsInRooms rooms w = true then 1 else 0) ∧
    (socket_shutdown_handler closed rooms).1 w = (closed w || wsInRooms rooms w) := by
  induction rooms generalizing closed with
  | nil => simp [socket_shutdown_handler, wsInRooms]
  | cons hd tl ih =>
      obtain ⟨key, room⟩ := hd
      have hr := shutdownRoom_spec room closed w
      have ht := ih (shutdownRoom closed room).1
      have hstep : socket_shutdown_handler closed ((key, room) :: tl) =
          ((socket_shutdown_handler (shutdownRoom closed room).1 tl).1,
            (shutdownRoom closed room).2 ++
              (socket_shutdown_handler (shutdownRoom closed room).1 tl).2) := by
        simp [socket_shutdown_handler]
      have hin : wsInRooms ((key, room) :: tl) w =
          (wsInRoom room w || wsInRooms tl w) := by
        simp [wsInRooms, List.any_cons]
      rw [hstep, hin]
      refine ⟨?_, ?_, ?_⟩
      · intro c hcmem
        rcases List.mem_append.mp hcmem with hcm | hcm
        · exact hr.2.2 c hcm
        · exact ht.1 c hcm
      · rw [List.countP_append, hr.2.1, ht.2.1, hr.1]
        cases hcw : closed w <;> cases hrm : wsInRoom room w <;>
          cases htl : wsInRooms tl w <;> simp
      · rw [ht.2.2, hr.1]
        cases hcw : closed w <;> cases hrm : wsInRoom room w <;> simp

/-- Test fixture: a registry with session 1 in two rooms, an
already-closed session 2, and an empty room in the middle. -/
def roomsShut : Rooms :=
  [(PyKey.pair 0 0, [(1, 0), (2, 5)]), (PyKey.pair 0 1, []),
   (PyKey.pair 1 1, [(1, 3)])]

/-- Witness for `shutdown_spec`: on `roomsShut` with session 2 already
closed, the single close call issued targets session 1 with the fixed
reason, and session 1 is closed exactly once despite belonging to two
rooms. -/
theorem shutdown_spec_witness :
    ((⟨1, 1001, "Server shutdown"⟩ : CloseCall).code = 1001 ∧
      (⟨1, 1001, "Server shutdown"⟩ : CloseCall).message = "Server shutdown") ∧
    List.countP (fun c => c.ws == 1)
      (socket_shutdown_handler (fun w2 => w2 == 2) roomsShut).2 = 1 :=
  ⟨(shutdown_spec roomsShut (fun w2 => w2 == 2) 1).1 ⟨1, 1001, "Server shutdown"⟩
      (by decide),
   by rw [(shutdown_spec roomsShut (fun w2 => w2 == 2) 1).2.1]; decide⟩

end Senslify
